import Mathlib

/-!
Verification of the Avengers-Thor trending-stock core: the live price
reconciler (useFinnhubWebSocket), the quote provider wrapper
(getFinnhubQuote), the trending-dimension calculator and retention policy
(calculateTrendingDimensions, calculateStdDev), the database-first quote
resolver (getStockDataWithOHLCV) and the same-day OHLCV upsert
(updateDailyOHLCVFromQuote).

Prices, scores and ranks are modelled as rationals; timestamps as
integers (epoch milliseconds); the population standard deviation is a
real number because the source takes a square root. Persistence and
network I/O are elided: each function is modelled as a pure function of
the data it reads (the database row it fetched, the provider response it
received), which is exactly the data flow of the source.
-/

namespace AvengersThor

/-- JavaScript `x || fallback` applied to a possibly-missing number `x`:
falls through to the fallback when `x` is absent (undefined) or zero,
because the number 0 is falsy in JavaScript. -/
def jsOrQ (x : Option ℚ) (fallback : ℚ) : ℚ :=
  match x with
  | some v => if v = 0 then fallback else v
  | none => fallback

/-! ## Live Price Reconciler — useFinnhubWebSocket (src/unnamed/part_006) -/

/-- The PriceUpdate record emitted for each inbound trade
(part_006, lines 5-12 and 82-89). -/
structure PriceUpdate where
  symbol : String
  price : ℚ
  timestamp : ℤ
  change : ℚ
  percentChange : ℚ
  previousClosePrice : ℚ
deriving Repr, DecidableEq

/-- The ws.onmessage trade handler for a single trade (part_006, lines
62-94): `refMap` is the module-level priceReferenceMap (anchor per
symbol), `prev` is the entry currently stored in the prices map for this
symbol (the update produced by the immediately prior tick, if any).
The anchor lookup is `priceReferenceMap.get(trade.s) || currentPrice`,
so a missing (or zero) stored anchor degrades to the tick price itself. -/
def processTrade (refMap : String → Option ℚ) (prev : Option PriceUpdate)
    (s : String) (p : ℚ) (t : ℤ) : PriceUpdate :=
  let previousClosePrice := jsOrQ (refMap s) p
  let percentChange :=
    if previousClosePrice > 0 then (p - previousClosePrice) / previousClosePrice * 100 else 0
  let change :=
    match prev with
    | some u => p - u.price
    | none => 0
  ⟨s, p, t, change, percentChange, previousClosePrice⟩

/-- Deliver a sequence of ticks (price, timestamp) for one symbol,
threading the prices-map entry from tick to tick as the handler does via
setPrices; returns the list of emitted PriceUpdate records in order. -/
def runTicks (refMap : String → Option ℚ) (prev : Option PriceUpdate)
    (s : String) : List (ℚ × ℤ) → List PriceUpdate
  | [] => []
  | (p, t) :: rest =>
    let u := processTrade refMap prev s p t
    u :: runTicks refMap (some u) s rest

/-- Outgoing client messages on the streaming transport. -/
inductive WsOutMsg where
  | subscribeMsg (symbol : String)
  | unsubscribeMsg (symbol : String)
deriving Repr, DecidableEq

/-- Connection-session state of the hook: whether the socket is open,
the tracked symbol set (subscribedSymbolsRef), and whether a reconnect
timer is pending (reconnectTimeoutRef). -/
structure ConnState where
  isConnected : Bool
  subscribedSymbols : List String
  pendingReconnect : Option ℕ
deriving Repr, DecidableEq

/-- Transport events the hook reacts to. -/
inductive WsEvent where
  | opened
  | closed (code : ℕ)
deriving Repr, DecidableEq

/-- The ws.onopen handler (part_006, lines 52-60) and the ws.onclose
handler (lines 105-119) as a step function: returns the new session
state and the messages sent. On open, the hook resubscribes to every
tracked symbol; on close it schedules a reconnect timer with the fixed
3000 ms backoff (pendingReconnect = some 3000) unless the close code is
1008 (policy violation, the authentication rejection), which is
terminal: no timer is scheduled. -/
def wsStep (st : ConnState) (e : WsEvent) : ConnState × List WsOutMsg :=
  match e with
  | .opened =>
    ({ st with isConnected := true },
     st.subscribedSymbols.map WsOutMsg.subscribeMsg)
  | .closed code =>
    if code ≠ 1008 then
      ({ st with isConnected := false, pendingReconnect := some 3000 }, [])
    else
      ({ st with isConnected := false, pendingReconnect := none }, [])

/-! ## Quote provider wrapper — getFinnhubQuote (src/unnamed/part_007) -/

/-- The raw Finnhub /quote response body (part_007, lines 1-11). The dp
field is an Option because the source explicitly handles it being null
or undefined. -/
structure FinnhubQuoteRaw where
  c : ℚ
  d : ℚ
  dp : Option ℚ
  h : ℚ
  l : ℚ
  o : ℚ
  pc : ℚ
  t : ℤ
  v : ℚ
deriving Repr, DecidableEq

/-- The value getFinnhubQuote resolves with on success
(part_007, lines 15-23 and 64-72). -/
structure FinnhubQuoteResult where
  percentChange : ℚ
  price : ℚ
  high : ℚ
  low : ℚ
  open_ : ℚ
  previousClosePrice : ℚ
  volume : ℚ
deriving Repr, DecidableEq

/-- getFinnhubQuote (part_007, lines 15-77) as a function of the provider
interaction: `resp = none` covers every failure path (missing api key,
non-ok HTTP status, thrown fetch error), all of which return null in the
source; on a body with c = 0 and pc = 0 the source treats the symbol as
not found and returns null; otherwise percentChange is the provider dp,
falling back to the manual formula when dp is null or undefined. -/
def getFinnhubQuote (resp : Option FinnhubQuoteRaw) : Option FinnhubQuoteResult :=
  match resp with
  | none => none
  | some data =>
    if data.c = 0 ∧ data.pc = 0 then none
    else
      let percentChange :=
        match data.dp with
        | some dp => dp
        | none => if data.pc ≠ 0 then (data.c - data.pc) / data.pc * 100 else 0
      some ⟨percentChange, data.c, data.h, data.l, data.o, data.pc, data.v⟩

/-! ## Same-day OHLCV upsert — updateDailyOHLCVFromQuote (src/web/src/lib/ohlcv.ts) -/

/-- A stock_ohlcv row (ohlcv.ts, lines 3-16; id and the bookkeeping
timestamps are elided). -/
structure OHLCVData where
  symbol : String
  date : String
  open_price : ℚ
  high_price : ℚ
  low_price : ℚ
  close_price : ℚ
  volume : ℚ
  previous_close : ℚ
  percent_change : ℚ
deriving Repr, DecidableEq

/-- The quoteData argument of updateDailyOHLCVFromQuote
(ohlcv.ts, lines 160-167). -/
structure QuoteData where
  price : ℚ
  high : ℚ
  low : ℚ
  open_ : ℚ
  volume : ℚ
  previousClosePrice : ℚ
deriving Repr, DecidableEq

/-- updateDailyOHLCVFromQuote (ohlcv.ts, lines 158-204) as the record it
builds and upserts: `existingData` is the row the function fetched for
(symbol, today), or none when no row exists yet. The source reads the
existing fields through the JavaScript `||` fallback
(`existingData?.open_price || quoteData.open` and likewise for high and
low), so an existing value of 0 falls through to the fresh quote. The
upsert of the built record is elided. -/
def updateDailyOHLCVFromQuote (symbol today : String)
    (existingData : Option OHLCVData) (quoteData : QuoteData) : OHLCVData :=
  { symbol := symbol
    date := today
    open_price := jsOrQ (existingData.map (·.open_price)) quoteData.open_
    high_price := max (jsOrQ (existingData.map (·.high_price)) quoteData.high) quoteData.high
    low_price := min (jsOrQ (existingData.map (·.low_price)) quoteData.low) quoteData.low
    close_price := quoteData.price
    volume := quoteData.volume
    previous_close := quoteData.previousClosePrice
    percent_change :=
      if quoteData.previousClosePrice > 0 then
        (quoteData.price - quoteData.previousClosePrice) / quoteData.previousClosePrice * 100
      else 0 }

/-- Two-decimal rounding, used to state the claim that percent-change is
rounded to 2 decimals (the spec formalisation, for comparison with the
source computation). -/
def round2 (x : ℚ) : ℚ := (round (x * 100) : ℤ) / 100

/-! ## Database-first quote resolution — getStockDataWithOHLCV
(src/web/src/lib/data-fetcher.ts) -/

/-- Provenance of a resolved record (data-fetcher.ts, line 25). -/
inductive Source where
  | database
  | api
deriving Repr, DecidableEq

/-- The resolved record returned to the UI (data-fetcher.ts, lines 14-27). -/
structure StockDataWithOHLCV where
  symbol : String
  price : ℚ
  previousClosePrice : ℚ
  percentChange : ℚ
  open_ : ℚ
  high : ℚ
  low : ℚ
  close : ℚ
  volume : ℚ
  date : String
  source : Source
  fetchedAt : String
deriving Repr, DecidableEq

/-- getStockDataWithOHLCV (data-fetcher.ts, lines 32-110) as a function
of the row found in the store for (symbol, today) and of the result of
the getFinnhubQuote call it performs: on a database hit the live quote is
merged through the JavaScript `||` fallback (`quote?.price ||
dbData.close_price`, `quote?.percentChange || dbData.percent_change`) and
the record is marked source database; on a miss a failed quote yields
null, and a successful quote builds the record marked source api (the
write-back via saveBatchOHLCVData is elided). -/
def getStockDataWithOHLCV (symbol today nowIso : String)
    (dbData : Option OHLCVData) (quote : Option FinnhubQuoteResult) :
    Option StockDataWithOHLCV :=
  match dbData with
  | some dbr =>
    some { symbol := symbol
           price := jsOrQ (quote.map (·.price)) dbr.close_price
           previousClosePrice := dbr.previous_close
           percentChange := jsOrQ (quote.map (·.percentChange)) dbr.percent_change
           open_ := dbr.open_price
           high := dbr.high_price
           low := dbr.low_price
           close := dbr.close_price
           volume := dbr.volume
           date := today
           source := .database
           fetchedAt := nowIso }
  | none =>
    match quote with
    | none => none
    | some q =>
      some { symbol := symbol
             price := q.price
             previousClosePrice := q.previousClosePrice
             percentChange := q.percentChange
             open_ := q.open_
             high := q.high
             low := q.low
             close := q.price
             volume := q.volume
             date := today
             source := .api
             fetchedAt := nowIso }

/-! ## Trending dimensions — calculateTrendingDimensions
(src/unnamed/part_008) -/

/-- A stock_trending_snapshots row as fetched by the calculator
(part_008, lines 102-107): rank and trending_score, plus the created_at
timestamp in epoch milliseconds. -/
structure SnapshotRow where
  symbol : String
  rank : ℚ
  trending_score : ℚ
  created_at : ℤ
deriving Repr, DecidableEq

/-- Trend direction of the 6-hour window versus the 24-hour window
(part_008, line 40). -/
inductive Trend where
  | up
  | down
  | stable
deriving Repr, DecidableEq

/-- The real-time dimension (part_008, lines 28-33). -/
structure RealTimeDim where
  rank : ℚ
  score : ℚ
  isCurrentlyTrending : Bool
  lastSeen : ℤ
deriving Repr, DecidableEq

/-- The 6-hour dimension (part_008, lines 36-42). -/
structure SixHourDim where
  avgScore : ℚ
  avgRank : ℚ
  snapshotCount : ℕ
  trend : Trend
  volatility : ℝ

/-- The 24-hour dimension (part_008, lines 45-52). -/
structure TwentyFourHourDim where
  avgScore : ℚ
  avgRank : ℚ
  peakScore : ℚ
  peakTime : ℤ
  snapshotCount : ℕ
  consistency : ℚ
deriving Repr, DecidableEq

/-- The full dimensions object (part_008, lines 24-57). -/
structure TrendingDimensions where
  symbol : String
  realTime : RealTimeDim
  sixHour : SixHourDim
  twentyFourHour : TwentyFourHourDim
  keepSymbol : Bool
  keepReason : String

/-- calculateStdDev (part_008, lines 243-249): returns 0 for fewer than
2 values, otherwise the square root of the mean squared deviation from
the mean (population variance, divided by N). -/
noncomputable def calculateStdDev (values : List ℚ) : ℝ :=
  if values.length < 2 then 0
  else
    let avg := values.sum / (values.length : ℚ)
    let squaredDiffs := values.map fun v => (v - avg) ^ 2
    let variance := squaredDiffs.sum / (values.length : ℚ)
    Real.sqrt (variance : ℚ)

/-- The population standard deviation as the spec words it: the square
root of the sum of squared deviations from the arithmetic mean divided
by N (not N − 1). Stated from the spec, for comparison with
calculateStdDev. -/
noncomputable def populationStdDev (values : List ℚ) : ℝ :=
  let mean : ℚ := values.sum / (values.length : ℚ)
  let variance : ℚ := (values.map fun v => (v - mean) ^ 2).sum / (values.length : ℚ)
  Real.sqrt (variance : ℝ)

/-- JavaScript Math.max over a spread list, as used for peakScore
(part_008, line 142). The empty case never arises at the call site
(the snapshot list is nonempty there); Math.max() with no arguments
would be negative infinity. -/
def mathMax : List ℚ → ℚ
  | [] => 0
  | x :: xs => xs.foldl max x

/-- The keep/drop decision block (part_008, lines 159-174), first match
wins: currently trending, then 6-hour average score above 50, then
24-hour average score above 40, otherwise drop. -/
def retentionDecision (isCurrentlyTrending : Bool)
    (sixHourAvgScore twentyFourHourAvgScore : ℚ) : Bool × String :=
  if isCurrentlyTrending then (true, "Currently in top 30")
  else if sixHourAvgScore > 50 then (true, "6h avg score > 50")
  else if twentyFourHourAvgScore > 40 then (true, "24h avg score > 40")
  else (false, "Below threshold")

/-- calculateTrendingDimensions (part_008, lines 95-201) as a function
of the fetched 24-hour window: `allSnapshots` is the query result for
the symbol, ordered by created_at descending (newest first), and `now`
is the current time in epoch milliseconds. An empty window returns none
(the source returns null). The real-time dimension comes from the head
of the list with isCurrentlyTrending set to true unconditionally; the
6-hour subset is the filter created_at within the last 6 hours; peak
fields, consistency, trend and the retention decision follow lines
139-174. -/
noncomputable def calculateTrendingDimensions (symbol : String) (now : ℤ)
    (allSnapshots : List SnapshotRow) : Option TrendingDimensions :=
  match allSnapshots with
  | [] => none
  | latest :: rest =>
    let all := latest :: rest
    let sixHourAgo := now - 6 * 60 * 60 * 1000
    let sixHourSnapshots := all.filter fun s => sixHourAgo ≤ s.created_at
    let realTime : RealTimeDim :=
      ⟨latest.rank, latest.trending_score, true, latest.created_at⟩
    let sixHourScores := sixHourSnapshots.map (·.trending_score)
    let sixHourAvgScore :=
      if sixHourScores.length > 0 then sixHourScores.sum / (sixHourScores.length : ℚ) else 0
    let sixHourAvgRank :=
      if sixHourSnapshots.length > 0 then
        (sixHourSnapshots.map (·.rank)).sum / (sixHourSnapshots.length : ℚ)
      else latest.rank
    let sixHourVolatility := calculateStdDev sixHourScores
    let allScores := all.map (·.trending_score)
    let twentyFourHourAvgScore := allScores.sum / (allScores.length : ℚ)
    let twentyFourHourAvgRank := (all.map (·.rank)).sum / (all.length : ℚ)
    let peakScore := mathMax allScores
    let peakSnapshot := all.find? fun s => s.trending_score = peakScore
    let possibleSnapshots : ℚ := 720
    let consistency := min 100 (((all.length : ℚ) / possibleSnapshots) * 100)
    let trend : Trend :=
      if sixHourAvgScore > twentyFourHourAvgScore * 1.1 then .up
      else if sixHourAvgScore < twentyFourHourAvgScore * 0.9 then .down
      else .stable
    let decision := retentionDecision realTime.isCurrentlyTrending
      sixHourAvgScore twentyFourHourAvgScore
    some
      { symbol := symbol
        realTime := realTime
        sixHour :=
          ⟨sixHourAvgScore, sixHourAvgRank, sixHourSnapshots.length, trend,
            sixHourVolatility⟩
        twentyFourHour :=
          ⟨twentyFourHourAvgScore, twentyFourHourAvgRank, peakScore,
            (match peakSnapshot with
             | some s => s.created_at
             | none => now),
            all.length, consistency⟩
        keepSymbol := decision.1
        keepReason := decision.2 }

/-! ## Theorems -/

/-- Claim C2: the retention decision is evaluated in strict priority
order with first match winning: currently trending beats the 6-hour
rule, which beats the 24-hour rule, which beats the drop default; the
higher-priority reason string is the one returned even when a
lower-priority rule also applies. -/
theorem c2_retention_priority (isTrending : Bool) (sixAvg tfAvg : ℚ) :
    (isTrending = true →
      retentionDecision isTrending sixAvg tfAvg = (true, "Currently in top 30")) ∧
    (isTrending = false → sixAvg > 50 →
      retentionDecision isTrending sixAvg tfAvg = (true, "6h avg score > 50")) ∧
    (isTrending = false → ¬ sixAvg > 50 → tfAvg > 40 →
      retentionDecision isTrending sixAvg tfAvg = (true, "24h avg score > 40")) ∧
    (isTrending = false → ¬ sixAvg > 50 → ¬ tfAvg > 40 →
      retentionDecision isTrending sixAvg tfAvg = (false, "Below threshold")) := by
  refine ⟨?_, ?_, ?_, ?_⟩
  · intro h; subst h; rfl
  · intro h h6; subst h; simp [retentionDecision, h6]
  · intro h h6 h24; subst h; simp [retentionDecision, h6, h24]
  · intro h h6 h24; subst h; simp [retentionDecision, h6, h24]

/-- Witness for C2: an input satisfying both the 6-hour and the 24-hour
rules but not currently trending is kept with the 6-hour reason. -/
theorem c2_retention_priority_witness :
    retentionDecision false 60 60 = (true, "6h avg score > 50") :=
  (c2_retention_priority false 60 60).2.1 rfl (by norm_num)

/-- Claim C3: when no record is stored for today, a failed provider call
or the zero/zero not-found sentinel makes quote resolution return none
(an explicit unresolved result), never a zero-filled record; in
particular a response with c = 0 and pc = 0 never produces a record at
all. -/
theorem c3_unresolved_not_zero_filled (symbol today nowIso : String)
    (resp : Option FinnhubQuoteRaw) :
    (resp = none →
      getFinnhubQuote resp = none ∧
      getStockDataWithOHLCV symbol today nowIso none (getFinnhubQuote resp) = none) ∧
    (∀ raw, resp = some raw → raw.c = 0 → raw.pc = 0 →
      getFinnhubQuote resp = none ∧
      getStockDataWithOHLCV symbol today nowIso none (getFinnhubQuote resp) = none) := by
  constructor
  · rintro rfl
    exact ⟨rfl, rfl⟩
  · rintro raw rfl hc hpc
    have hq : getFinnhubQuote (some raw) = none := by
      simp [getFinnhubQuote, hc, hpc]
    refine ⟨hq, ?_⟩
    rw [hq]
    rfl

/-- Witness for C3: the sentinel response with every field zero yields
the unresolved result none. -/
theorem c3_unresolved_not_zero_filled_witness :
    getFinnhubQuote (some ⟨0, 0, some 0, 0, 0, 0, 0, 0, 0⟩) = none ∧
    getStockDataWithOHLCV "ZZZ" "2025-01-02" "2025-01-02T00:00:00Z" none
      (getFinnhubQuote (some ⟨0, 0, some 0, 0, 0, 0, 0, 0, 0⟩)) = none :=
  (c3_unresolved_not_zero_filled "ZZZ" "2025-01-02" "2025-01-02T00:00:00Z"
    (some ⟨0, 0, some 0, 0, 0, 0, 0, 0, 0⟩)).2 ⟨0, 0, some 0, 0, 0, 0, 0, 0, 0⟩ rfl rfl rfl

/-- Claim C9: a close event with any code other than 1008 schedules the
fixed 3000 ms reconnect timer, and on reopening the hook sends a
subscribe message for every tracked symbol; a close with the
authentication-rejection code 1008 schedules no reconnect. -/
theorem c9_reconnect_policy (st : ConnState) (code : ℕ) :
    ((wsStep st (.closed code)).1.pendingReconnect = some 3000 ↔ code ≠ 1008) ∧
    (wsStep st (.closed 1008)).1.pendingReconnect = none ∧
    (wsStep st .opened).2 = st.subscribedSymbols.map WsOutMsg.subscribeMsg ∧
    (∀ s ∈ st.subscribedSymbols, WsOutMsg.subscribeMsg s ∈ (wsStep st .opened).2) := by
  refine ⟨?_, by simp [wsStep], rfl, ?_⟩
  · by_cases h : code = 1008 <;> simp [wsStep, h]
  · intro s hs
    exact List.mem_map_of_mem _ hs

/-- Witness for C9: with symbol X tracked, a code-1006 close schedules
the 3000 ms reconnect, a code-1008 close schedules none, and reopening
resubscribes X. -/
theorem c9_reconnect_policy_witness :
    (wsStep ⟨true, ["X"], none⟩ (.closed 1006)).1.pendingReconnect = some 3000 ∧
    (wsStep ⟨true, ["X"], none⟩ (.closed 1008)).1.pendingReconnect = none ∧
    WsOutMsg.subscribeMsg "X" ∈ (wsStep ⟨false, ["X"], none⟩ .opened).2 :=
  ⟨(c9_reconnect_policy ⟨true, ["X"], none⟩ 1006).1.mpr (by decide),
   (c9_reconnect_policy ⟨true, ["X"], none⟩ 1008).2.1,
   (c9_reconnect_policy ⟨false, ["X"], none⟩ 1006).2.2.2 "X" (by simp)⟩

/-- Counterexample to claim C4: an existing same-day row whose stored
open is 0 (with a fresh quote whose open is 5) has its open overwritten
to 5 by the update, because the source reads the existing field through
the JavaScript `||` fallback and 0 is falsy; the claim says open is set
once at creation and never overwritten. The same row also has its low
narrowed from 0 to 2 instead of widened to min 0 2 = 0. -/
theorem c4_counterexample :
    (updateDailyOHLCVFromQuote "AAPL" "2025-01-02"
        (some ⟨"AAPL", "2025-01-02", 0, 10, 0, 9, 1000, 8, 1⟩)
        ⟨9, 10, 2, 5, 1100, 8⟩).open_price = 5 ∧
    (OHLCVData.mk "AAPL" "2025-01-02" 0 10 0 9 1000 8 1).open_price = 0 ∧
    (5 : ℚ) ≠ 0 ∧
    (updateDailyOHLCVFromQuote "AAPL" "2025-01-02"
        (some ⟨"AAPL", "2025-01-02", 0, 10, 0, 9, 1000, 8, 1⟩)
        ⟨9, 10, 2, 5, 1100, 8⟩).low_price = 2 ∧
    min (0 : ℚ) 2 = 0 ∧ (2 : ℚ) ≠ 0 := by
  refine ⟨?_, rfl, by norm_num, ?_, by norm_num, by norm_num⟩ <;>
    norm_num [updateDailyOHLCVFromQuote, jsOrQ]

/-- Claim C4 as amended: provided the open, high and low stored on the
existing row are nonzero (the source reads them through the JavaScript `||` fallback,
which treats 0 as absent), a same-day update keeps the existing open,
widens high to max(existing.high, new.high) and low to
min(existing.low, new.low), and always takes the latest close and
volume; when no row exists yet, open, high and low are set from the
quote and close and volume take the quote values. -/
theorem c4_widening_update (symbol today : String) (q : QuoteData) :
    (∀ ex : OHLCVData, ex.open_price ≠ 0 → ex.high_price ≠ 0 → ex.low_price ≠ 0 →
      (updateDailyOHLCVFromQuote symbol today (some ex) q).open_price = ex.open_price ∧
      (updateDailyOHLCVFromQuote symbol today (some ex) q).high_price
        = max ex.high_price q.high ∧
      (updateDailyOHLCVFromQuote symbol today (some ex) q).low_price
        = min ex.low_price q.low ∧
      (updateDailyOHLCVFromQuote symbol today (some ex) q).close_price = q.price ∧
      (updateDailyOHLCVFromQuote symbol today (some ex) q).volume = q.volume) ∧
    ((updateDailyOHLCVFromQuote symbol today none q).open_price = q.open_ ∧
     (updateDailyOHLCVFromQuote symbol today none q).high_price = q.high ∧
     (updateDailyOHLCVFromQuote symbol today none q).low_price = q.low ∧
     (updateDailyOHLCVFromQuote symbol today none q).close_price = q.price ∧
     (updateDailyOHLCVFromQuote symbol today none q).volume = q.volume) := by
  constructor
  · intro ex h1 h2 h3
    refine ⟨?_, ?_, ?_, rfl, rfl⟩ <;> simp [updateDailyOHLCVFromQuote, jsOrQ, h1, h2, h3]
  · refine ⟨rfl, ?_, ?_, rfl, rfl⟩ <;> simp [updateDailyOHLCVFromQuote, jsOrQ]

/-- Witness for the amended C4: a second intraday quote with a higher
high and a lower low widens both while the open of the existing row is
kept. -/
theorem c4_widening_update_witness :
    (updateDailyOHLCVFromQuote "AAPL" "2025-01-02"
        (some ⟨"AAPL", "2025-01-02", 9, 10, 8, 9, 1000, 8, 1⟩)
        ⟨11, 12, 7, 10, 1100, 8⟩).open_price = 9 ∧
    (updateDailyOHLCVFromQuote "AAPL" "2025-01-02"
        (some ⟨"AAPL", "2025-01-02", 9, 10, 8, 9, 1000, 8, 1⟩)
        ⟨11, 12, 7, 10, 1100, 8⟩).high_price = max 10 12 ∧
    (updateDailyOHLCVFromQuote "AAPL" "2025-01-02"
        (some ⟨"AAPL", "2025-01-02", 9, 10, 8, 9, 1000, 8, 1⟩)
        ⟨11, 12, 7, 10, 1100, 8⟩).low_price = min 8 7 := by
  have h := (c4_widening_update "AAPL" "2025-01-02" ⟨11, 12, 7, 10, 1100, 8⟩).1
    ⟨"AAPL", "2025-01-02", 9, 10, 8, 9, 1000, 8, 1⟩
    (by norm_num) (by norm_num) (by norm_num)
  exact ⟨h.1, h.2.1, h.2.2.1⟩

/-- Counterexample to claim C5: for current price 4 and previous close
3, the stored percent-change is exactly 100/3, which is not a value
rounded to 2 decimals (two-decimal rounding of the formula gives
3333/100); no rounding is applied anywhere in the source. -/
theorem c5_counterexample :
    (updateDailyOHLCVFromQuote "AAPL" "2025-01-02" none
        ⟨4, 4, 3, 3, 0, 3⟩).percent_change = 100 / 3 ∧
    round2 (((4 : ℚ) - 3) / 3 * 100) = 3333 / 100 ∧
    (100 / 3 : ℚ) ≠ 3333 / 100 := by
  refine ⟨?_, ?_, by norm_num⟩
  · norm_num [updateDailyOHLCVFromQuote]
  · rw [round2, round_eq]
    norm_num

/-- Claim C5 as amended: the percent-change computed by the OHLCV
write-back and by the live reconciler is exactly
(current − previousClose) / previousClose × 100 with no rounding
applied, and is 0 whenever the previous close (respectively the stored
anchor) is 0 or negative — the two layers use the identical guarded
formula, so previousClose = 100 with current = 105 yields exactly 5 and
previousClose = 0 yields 0. -/
theorem c5_percent_change_formula (symbol today : String) (ex : Option OHLCVData)
    (q : QuoteData) (refMap : String → Option ℚ) (prev : Option PriceUpdate)
    (s : String) (p : ℚ) (t : ℤ) (a : ℚ) :
    (q.previousClosePrice > 0 →
      (updateDailyOHLCVFromQuote symbol today ex q).percent_change
        = (q.price - q.previousClosePrice) / q.previousClosePrice * 100) ∧
    (q.previousClosePrice ≤ 0 →
      (updateDailyOHLCVFromQuote symbol today ex q).percent_change = 0) ∧
    (refMap s = some a → a > 0 →
      (processTrade refMap prev s p t).percentChange = (p - a) / a * 100) ∧
    (refMap s = some a → a ≤ 0 →
      (processTrade refMap prev s p t).percentChange = 0) := by
  refine ⟨?_, ?_, ?_, ?_⟩
  · intro h
    simp [updateDailyOHLCVFromQuote, h]
  · intro h
    simp [updateDailyOHLCVFromQuote, not_lt.mpr h]
  · intro ha h
    simp [processTrade, jsOrQ, ha, ne_of_gt h, h]
  · intro ha h
    rcases lt_or_eq_of_le h with h0 | h0
    · simp [processTrade, jsOrQ, ha, ne_of_lt h0, not_lt.mpr (le_of_lt h0)]
    · subst h0
      by_cases hp : p > 0 <;> simp [processTrade, jsOrQ, ha, hp]

/-- Witness for the amended C5: previous close 100 with current 105
yields exactly 5 in the write-back layer, previous close 0 yields 0, and
the reconciler with anchor 100 and tick 105 also yields exactly 5. -/
theorem c5_percent_change_formula_witness :
    (updateDailyOHLCVFromQuote "AAPL" "2025-01-02" none
        ⟨105, 105, 100, 100, 0, 100⟩).percent_change = 5 ∧
    (updateDailyOHLCVFromQuote "AAPL" "2025-01-02" none
        ⟨105, 105, 100, 100, 0, 0⟩).percent_change = 0 ∧
    (processTrade (fun _ => some 100) none "X" 105 1).percentChange = 5 := by
  have h1 := (c5_percent_change_formula "AAPL" "2025-01-02" none
    ⟨105, 105, 100, 100, 0, 100⟩ (fun _ => some 100) none "X" 105 1 100).1 (by norm_num)
  have h2 := (c5_percent_change_formula "AAPL" "2025-01-02" none
    ⟨105, 105, 100, 100, 0, 0⟩ (fun _ => some 100) none "X" 105 1 100).2.1 (by norm_num)
  have h3 := (c5_percent_change_formula "AAPL" "2025-01-02" none
    ⟨105, 105, 100, 100, 0, 100⟩ (fun _ => some 100) none "X" 105 1 100).2.2.1
    rfl (by norm_num)
  refine ⟨?_, h2, ?_⟩
  · rw [h1]; norm_num
  · rw [h3]; norm_num

/-- Counterexample to claim C7: with a stored record for today whose
stored percent-change is 7, a successful provider call reporting
percent-change 0 does not propagate the live value 0: the source merges
it with the JavaScript `||` fallback, 0 is falsy, and the stored 7 is
returned; the claim says the live percentChange is returned whenever the
provider call succeeds. -/
theorem c7_counterexample :
    ((getStockDataWithOHLCV "AAPL" "2025-01-02" "2025-01-02T00:00:00Z"
        (some ⟨"AAPL", "2025-01-02", 3, 10, 2, 9, 1000, 8, 7⟩)
        (some ⟨0, 9, 10, 2, 3, 8, 1100⟩)).map (·.percentChange)) = some 7 ∧
    (FinnhubQuoteResult.mk 0 9 10 2 3 8 1100).percentChange = 0 ∧
    (7 : ℚ) ≠ 0 := by
  refine ⟨?_, rfl, by norm_num⟩
  norm_num [getStockDataWithOHLCV, jsOrQ]

/-- Claim C7 as amended: with a stored record for today, resolution
always succeeds with source database and the stored OHLCV fields;
the returned percentChange is the live quote value whenever the
provider call succeeds with a nonzero percentChange, and degrades to
the stored percentChange when the provider call fails or when the live
percentChange is 0 (falsy under the JavaScript `||` merge); provider
failure is non-fatal and still yields the stored data. -/
theorem c7_database_first_merge (symbol today nowIso : String) (dbr : OHLCVData)
    (quote : Option FinnhubQuoteResult) :
    ∃ r, getStockDataWithOHLCV symbol today nowIso (some dbr) quote = some r ∧
      r.source = .database ∧
      r.open_ = dbr.open_price ∧
      r.high = dbr.high_price ∧
      r.low = dbr.low_price ∧
      r.close = dbr.close_price ∧
      r.volume = dbr.volume ∧
      r.previousClosePrice = dbr.previous_close ∧
      (∀ q, quote = some q → q.percentChange ≠ 0 → r.percentChange = q.percentChange) ∧
      (∀ q, quote = some q → q.percentChange = 0 → r.percentChange = dbr.percent_change) ∧
      (quote = none → r.percentChange = dbr.percent_change ∧ r.price = dbr.close_price) := by
  refine ⟨_, rfl, rfl, rfl, rfl, rfl, rfl, rfl, rfl, ?_, ?_, ?_⟩
  · rintro q rfl hq
    simp [jsOrQ, hq]
  · rintro q rfl hq
    simp [jsOrQ, hq]
  · rintro rfl
    exact ⟨rfl, rfl⟩

/-- Witness for the amended C7: with stored percent-change 7 and a
successful live quote reporting percent-change 3, the live value 3 is
returned and the record is marked source database. -/
theorem c7_database_first_merge_witness :
    ∃ r, getStockDataWithOHLCV "AAPL" "2025-01-02" "2025-01-02T00:00:00Z"
        (some ⟨"AAPL", "2025-01-02", 3, 10, 2, 9, 1000, 8, 7⟩)
        (some ⟨3, 9, 10, 2, 3, 8, 1100⟩) = some r ∧
      r.source = .database ∧ r.percentChange = 3 := by
  obtain ⟨r, hr, hsrc, -, -, -, -, -, -, hlive, -, -⟩ :=
    c7_database_first_merge "AAPL" "2025-01-02" "2025-01-02T00:00:00Z"
      ⟨"AAPL", "2025-01-02", 3, 10, 2, 9, 1000, 8, 7⟩ (some ⟨3, 9, 10, 2, 3, 8, 1100⟩)
  exact ⟨r, hr, hsrc, (hlive _ rfl (by norm_num)).trans rfl⟩

/-- Helper: the percent-change of a single processed trade against a
stored nonnegative anchor a equals the anchor formula (for a = 0 both
sides are 0: the source degrades to the tick price as anchor, and the
formula divides by zero, which is 0 over ℚ). -/
lemma processTrade_percentChange_anchor (refMap : String → Option ℚ)
    (prev : Option PriceUpdate) (s : String) (p : ℚ) (t : ℤ) (a : ℚ)
    (ha : refMap s = some a) (hnn : 0 ≤ a) :
    (processTrade refMap prev s p t).percentChange = (p - a) / a * 100 := by
  rcases eq_or_lt_of_le hnn with h0 | hpos
  · have hz : a = 0 := h0.symm
    subst hz
    simp only [processTrade, jsOrQ, ha, if_pos rfl, div_zero, zero_mul, sub_zero]
    by_cases hp : p > 0
    · simp [hp]
    · simp [hp]
  · simp [processTrade, jsOrQ, ha, ne_of_gt hpos, hpos]

/-- Helper: with no stored anchor the processed trade uses the tick
price itself as the anchor, and reports percent-change 0. -/
lemma processTrade_percentChange_noAnchor (refMap : String → Option ℚ)
    (prev : Option PriceUpdate) (s : String) (p : ℚ) (t : ℤ)
    (ha : refMap s = none) :
    (processTrade refMap prev s p t).previousClosePrice = p ∧
    (processTrade refMap prev s p t).percentChange = 0 := by
  constructor
  · simp [processTrade, jsOrQ, ha]
  · by_cases hp : p > 0 <;> simp [processTrade, jsOrQ, ha, hp]

/-- Helper: every update emitted by a tick sequence is the result of
processing some single trade for the same symbol. -/
lemma runTicks_mem_eq_processTrade (refMap : String → Option ℚ) (s : String) :
    ∀ (ticks : List (ℚ × ℤ)) (prev : Option PriceUpdate) (u : PriceUpdate),
      u ∈ runTicks refMap prev s ticks →
      ∃ prev' p t, u = processTrade refMap prev' s p t := by
  intro ticks
  induction ticks with
  | nil =>
    intro prev u hu
    simp [runTicks] at hu
  | cons pt rest ih =>
    obtain ⟨p, t⟩ := pt
    intro prev u hu
    rw [runTicks] at hu
    rcases List.mem_cons.mp hu with h | h
    · exact ⟨prev, p, t, h⟩
    · exact ih _ u h

/-- Helper: the emitted updates echo the tick prices in order. -/
lemma runTicks_map_price (refMap : String → Option ℚ) (s : String) :
    ∀ (ticks : List (ℚ × ℤ)) (prev : Option PriceUpdate),
      (runTicks refMap prev s ticks).map (fun u => u.price) = ticks.map Prod.fst := by
  intro ticks
  induction ticks with
  | nil => intro prev; rfl
  | cons pt rest ih =>
    obtain ⟨p, t⟩ := pt
    intro prev
    simp [runTicks, processTrade, ih]

/-- Helper: along an emitted update sequence, each update after the
first carries change equal to its own price minus the price of the
immediately preceding update. -/
lemma runTicks_change_chain (refMap : String → Option ℚ) (s : String) :
    ∀ (ticks : List (ℚ × ℤ)) (prev : Option PriceUpdate),
      List.Chain' (fun u v => v.change = v.price - u.price)
        (runTicks refMap prev s ticks) := by
  intro ticks
  induction ticks with
  | nil => intro prev; simp [runTicks]
  | cons pt rest ih =>
    obtain ⟨p, t⟩ := pt
    intro prev
    rw [runTicks]
    refine List.chain'_cons'.mpr ⟨?_, ih _⟩
    intro v hv
    cases rest with
    | nil => simp [runTicks] at hv
    | cons pt' rest' =>
      obtain ⟨p', t'⟩ := pt'
      rw [runTicks] at hv
      simp only [List.head?_cons, Option.mem_def, Option.some.injEq] at hv
      subst hv
      rfl

/-- Claim C1: for a subscribed symbol with a stored nonnegative anchor,
every update emitted for a tick sequence reports percent-change computed
against the anchor, never against the prior tick price; the prior tick
enters only the change field, which is the tick price minus the
previous tick price and 0 on the first tick; with no stored anchor the
tick price itself is the anchor and percent-change is 0. -/
theorem c1_anchor_stability (refMap : String → Option ℚ) (s : String)
    (ticks : List (ℚ × ℤ)) :
    (∀ a, refMap s = some a → 0 ≤ a →
      ∀ u ∈ runTicks refMap none s ticks,
        u.percentChange = (u.price - a) / a * 100) ∧
    (refMap s = none →
      ∀ u ∈ runTicks refMap none s ticks,
        u.previousClosePrice = u.price ∧ u.percentChange = 0) ∧
    (runTicks refMap none s ticks).map (fun u => u.price) = ticks.map Prod.fst ∧
    (∀ u, (runTicks refMap none s ticks).head? = some u → u.change = 0) ∧
    List.Chain' (fun u v => v.change = v.price - u.price)
      (runTicks refMap none s ticks) := by
  refine ⟨?_, ?_, runTicks_map_price refMap s ticks none, ?_,
    runTicks_change_chain refMap s ticks none⟩
  · intro a ha hnn u hu
    obtain ⟨prev', p, t, rfl⟩ := runTicks_mem_eq_processTrade refMap s ticks none u hu
    have hp : (processTrade refMap prev' s p t).price = p := rfl
    rw [hp, processTrade_percentChange_anchor refMap prev' s p t a ha hnn]
  · intro ha u hu
    obtain ⟨prev', p, t, rfl⟩ := runTicks_mem_eq_processTrade refMap s ticks none u hu
    have hp : (processTrade refMap prev' s p t).price = p := rfl
    rw [hp]
    exact processTrade_percentChange_noAnchor refMap prev' s p t ha
  · intro u hu
    cases ticks with
    | nil => simp [runTicks] at hu
    | cons pt rest =>
      obtain ⟨p, t⟩ := pt
      rw [runTicks] at hu
      simp only [List.head?_cons, Option.some.injEq] at hu
      subst hu
      rfl

/-- Witness for C1: subscribing X with anchor 50 and delivering ticks at
52 then 48 reports percent-change +4 then −4, both relative to 50,
and the second change field is 48 − 52. -/
theorem c1_anchor_stability_witness :
    (∀ u ∈ runTicks (fun x => if x = "X" then some 50 else none) none "X"
        [(52, 1), (48, 2)], u.percentChange = (u.price - 50) / 50 * 100) ∧
    (runTicks (fun x => if x = "X" then some 50 else none) none "X"
        [(52, 1), (48, 2)]).map (fun u => u.percentChange) = [4, -4] := by
  have h := c1_anchor_stability (fun x => if x = "X" then some 50 else none) "X"
    [(52, 1), (48, 2)]
  refine ⟨h.1 50 (by simp) (by norm_num), ?_⟩
  have h1 := h.1 50 (by simp) (by norm_num)
  have hprice := h.2.2.1
  norm_num [runTicks, processTrade, jsOrQ]

/-- Helper: the dimensions record computed for a nonempty window, by
projection: isCurrentlyTrending is the literal true, the retention
decision is taken on it, peakScore is the Math.max fold over the window
scores, peakTime comes from the first find? hit on the window in its
given order, and volatility is calculateStdDev of the 6-hour subset
scores. -/
lemma calcDims_spec (symbol : String) (now : ℤ) (latest : SnapshotRow)
    (rest : List SnapshotRow) (d : TrendingDimensions)
    (hd : calculateTrendingDimensions symbol now (latest :: rest) = some d) :
    d.realTime.isCurrentlyTrending = true ∧
    d.keepSymbol = true ∧
    d.keepReason = "Currently in top 30" ∧
    d.twentyFourHour.peakScore
      = mathMax ((latest :: rest).map (·.trending_score)) ∧
    d.twentyFourHour.peakTime
      = (match (latest :: rest).find?
            (fun s => s.trending_score
              = mathMax ((latest :: rest).map (·.trending_score))) with
         | some s => s.created_at
         | none => now) ∧
    d.sixHour.volatility
      = calculateStdDev
          (((latest :: rest).filter
              fun s => now - 6 * 60 * 60 * 1000 ≤ s.created_at).map
            (·.trending_score)) := by
  simp only [calculateTrendingDimensions, Option.some.injEq] at hd
  subst hd
  refine ⟨rfl, ?_, ?_, rfl, rfl, rfl⟩ <;> simp [retentionDecision]

/-- Helper: the Math.max fold over a nonempty list is a member of the
list and bounds every member. -/
lemma mathMax_is_max (x : ℚ) (xs : List ℚ) :
    mathMax (x :: xs) ∈ x :: xs ∧ ∀ y ∈ x :: xs, y ≤ mathMax (x :: xs) := by
  induction xs generalizing x with
  | nil =>
    refine ⟨?_, ?_⟩
    · simp [mathMax]
    · intro y hy
      simp [mathMax] at hy ⊢
      simp [hy]
  | cons z zs ih =>
    have hfold : mathMax (x :: z :: zs) = mathMax (max x z :: zs) := rfl
    obtain ⟨ihmem, ihbd⟩ := ih (max x z)
    constructor
    · rw [hfold]
      rcases List.mem_cons.mp ihmem with h | h
      · rcases max_choice x z with hc | hc
        · rw [h, hc]; exact List.mem_cons_self _ _
        · rw [h, hc]; exact List.mem_cons_of_mem _ (List.mem_cons_self _ _)
      · exact List.mem_cons_of_mem _ (List.mem_cons_of_mem _ h)
    · intro y hy
      rw [hfold]
      have hseed : max x z ≤ mathMax (max x z :: zs) :=
        ihbd _ (List.mem_cons_self _ _)
      rcases List.mem_cons.mp hy with h | h
      · subst h
        exact le_trans (le_max_left _ _) hseed
      · rcases List.mem_cons.mp h with h2 | h2
        · subst h2
          exact le_trans (le_max_right _ _) hseed
        · exact ihbd _ (List.mem_cons_of_mem _ h2)

/-- Helper: on a list sorted by created_at descending (newest first),
find? returns a hit that is chronologically latest among all hits. -/
lemma find?_latest_hit (p : SnapshotRow → Bool) :
    ∀ l : List SnapshotRow,
      l.Pairwise (fun a b => b.created_at ≤ a.created_at) →
      ∀ r, l.find? p = some r →
        r ∈ l ∧ p r = true ∧
        ∀ q ∈ l, p q = true → q.created_at ≤ r.created_at := by
  intro l
  induction l with
  | nil =>
    intro _ r hr
    simp at hr
  | cons x xs ih =>
    intro hp r hr
    obtain ⟨hx, hxs⟩ := List.pairwise_cons.mp hp
    by_cases hpx : p x = true
    · rw [List.find?_cons_of_pos _ hpx] at hr
      obtain rfl : x = r := by injection hr
      refine ⟨List.mem_cons_self _ _, hpx, ?_⟩
      intro q hq _
      rcases List.mem_cons.mp hq with h | h
      · exact h ▸ le_refl _
      · exact hx q h
    · rw [List.find?_cons_of_neg _ hpx] at hr
      obtain ⟨hmem, hpr, hbd⟩ := ih hxs r hr
      refine ⟨List.mem_cons_of_mem _ hmem, hpr, ?_⟩
      intro q hq hpq
      rcases List.mem_cons.mp hq with h | h
      · exact absurd (h ▸ hpq) hpx
      · exact hbd q h hpq

/-- Claim C8: calculateStdDev is the population standard deviation
(variance divided by N, not N − 1) of its input, it is 0 whenever the
input has fewer than 2 elements, and the 6-hour volatility of a computed
dimensions record is exactly calculateStdDev of the 6-hour subset
scores. -/
theorem c8_population_stddev (values : List ℚ) :
    calculateStdDev values = populationStdDev values ∧
    (values.length < 2 → calculateStdDev values = 0) ∧
    (∀ (symbol : String) (now : ℤ) (latest : SnapshotRow)
        (rest : List SnapshotRow) (d : TrendingDimensions),
      calculateTrendingDimensions symbol now (latest :: rest) = some d →
      d.sixHour.volatility
        = calculateStdDev
            (((latest :: rest).filter
                fun s => now - 6 * 60 * 60 * 1000 ≤ s.created_at).map
              (·.trending_score))) := by
  refine ⟨?_, ?_, ?_⟩
  · match values with
    | [] => simp [calculateStdDev, populationStdDev]
    | [v] => simp [calculateStdDev, populationStdDev]
    | a :: b :: rest =>
      have h : ¬ (a :: b :: rest).length < 2 := by
        simp [List.length_cons]
      rw [calculateStdDev, if_neg h]
      rfl
  · intro h
    rw [calculateStdDev, if_pos h]
  · intro symbol now latest rest d hd
    exact (calcDims_spec symbol now latest rest d hd).2.2.2.2.2

/-- Witness for C8: the empty subset and a singleton subset both have
volatility 0. -/
theorem c8_population_stddev_witness :
    calculateStdDev [] = 0 ∧ calculateStdDev [5] = 0 :=
  ⟨(c8_population_stddev []).2.1 (by decide),
   (c8_population_stddev [5]).2.1 (by decide)⟩

/-- Claim C10: whenever the calculation returns a non-null result,
isCurrentlyTrending is unconditionally true, so the symbol is always
kept with the currently-trending reason; no non-null result can carry
keepSymbol = false, and the lower-priority branches are unreachable
from the calculator. -/
theorem c10_nonnull_always_kept (symbol : String) (now : ℤ)
    (snaps : List SnapshotRow) (hne : snaps ≠ []) :
    ∃ d, calculateTrendingDimensions symbol now snaps = some d ∧
      d.realTime.isCurrentlyTrending = true ∧
      d.keepSymbol = true ∧
      d.keepReason = "Currently in top 30" := by
  obtain ⟨latest, rest, rfl⟩ := List.exists_cons_of_ne_nil hne
  obtain ⟨d, hd⟩ : ∃ d, calculateTrendingDimensions symbol now (latest :: rest) = some d :=
    ⟨_, rfl⟩
  have h := calcDims_spec symbol now latest rest d hd
  exact ⟨d, hd, h.1, h.2.1, h.2.2.1⟩

/-- Witness for C10: a window with one low-score snapshot (score 1,
which satisfies none of the lower thresholds) is still kept as
currently trending. -/
theorem c10_nonnull_always_kept_witness :
    ∃ d, calculateTrendingDimensions "A" 0 [⟨"A", 1, 1, 0⟩] = some d ∧
      d.realTime.isCurrentlyTrending = true ∧
      d.keepSymbol = true ∧
      d.keepReason = "Currently in top 30" :=
  c10_nonnull_always_kept "A" 0 [⟨"A", 1, 1, 0⟩] (by simp)

/-- Counterexample to claim C6: for the window [score 5 at time 2,
score 5 at time 1] (newest first, both achieving the maximum 5), the
computed peakTime is 2 — the chronologically latest snapshot achieving
the maximum — not 1, the earliest, because the fetched window is ordered
by created_at descending and find? takes the first hit of that order. -/
theorem c6_counterexample :
    ((calculateTrendingDimensions "A" 0 [⟨"A", 1, 5, 2⟩, ⟨"A", 2, 5, 1⟩]).map
        fun d => (d.twentyFourHour.peakScore, d.twentyFourHour.peakTime))
      = some (5, 2) ∧
    (SnapshotRow.mk "A" 1 5 2).trending_score = 5 ∧
    (SnapshotRow.mk "A" 2 5 1).trending_score = 5 ∧
    (SnapshotRow.mk "A" 2 5 1).created_at < (SnapshotRow.mk "A" 1 5 2).created_at ∧
    (2 : ℤ) ≠ 1 := by
  refine ⟨?_, rfl, rfl, by norm_num, by norm_num⟩
  obtain ⟨d, hd⟩ :
      ∃ d, calculateTrendingDimensions "A" 0 [⟨"A", 1, 5, 2⟩, ⟨"A", 2, 5, 1⟩] = some d :=
    ⟨_, rfl⟩
  have h := calcDims_spec "A" 0 ⟨"A", 1, 5, 2⟩ [⟨"A", 2, 5, 1⟩] d hd
  have hmax : mathMax ([⟨"A", 1, 5, 2⟩, ⟨"A", 2, 5, 1⟩].map
      (fun s : SnapshotRow => s.trending_score)) = 5 := by
    simp [mathMax]
  rw [hd]
  simp only [Option.map_some']
  rw [h.2.2.2.1, h.2.2.2.2.1, hmax]
  norm_num [List.find?]

/-- Claim C6 as amended: for every nonempty 24-hour window, ordered by
created_at descending as fetched, peakScore is the maximum trending
score in the window, and peakTime is the observation time of the
chronologically latest snapshot achieving that maximum — on ties the
most recent occurrence wins, not the earliest. -/
theorem c6_peak_fields (symbol : String) (now : ℤ) (snaps : List SnapshotRow)
    (hne : snaps ≠ [])
    (hsorted : snaps.Pairwise fun a b => b.created_at ≤ a.created_at) :
    ∃ d, calculateTrendingDimensions symbol now snaps = some d ∧
      (∃ r ∈ snaps, r.trending_score = d.twentyFourHour.peakScore) ∧
      (∀ r ∈ snaps, r.trending_score ≤ d.twentyFourHour.peakScore) ∧
      (∃ r ∈ snaps, r.trending_score = d.twentyFourHour.peakScore ∧
        r.created_at = d.twentyFourHour.peakTime ∧
        ∀ q ∈ snaps, q.trending_score = d.twentyFourHour.peakScore →
          q.created_at ≤ r.created_at) := by
  obtain ⟨latest, rest, rfl⟩ := List.exists_cons_of_ne_nil hne
  obtain ⟨d, hd⟩ :
      ∃ d, calculateTrendingDimensions symbol now (latest :: rest) = some d :=
    ⟨_, rfl⟩
  have h := calcDims_spec symbol now latest rest d hd
  have hpk := h.2.2.2.1
  have hpt := h.2.2.2.2.1
  have hmax := mathMax_is_max latest.trending_score (rest.map (·.trending_score))
  have hmap : latest.trending_score :: rest.map (·.trending_score)
      = (latest :: rest).map (·.trending_score) := rfl
  rw [hmap] at hmax
  obtain ⟨hmem, hbd⟩ := hmax
  refine ⟨d, hd, ?_, ?_, ?_⟩
  · obtain ⟨r, hr, hrs⟩ := List.mem_map.mp hmem
    exact ⟨r, hr, hrs.trans hpk.symm⟩
  · intro r hr
    rw [hpk]
    exact hbd _ (List.mem_map_of_mem _ hr)
  · -- find? succeeds because some row achieves the maximum
    obtain ⟨r0, hr0, hr0s⟩ := List.mem_map.mp hmem
    have hex : ∃ a ∈ latest :: rest,
        (fun s : SnapshotRow => decide (s.trending_score
          = mathMax ((latest :: rest).map (·.trending_score)))) a = true := by
      exact ⟨r0, hr0, decide_eq_true hr0s⟩
    have hsome := List.find?_isSome.mpr hex
    obtain ⟨r, hr⟩ := Option.isSome_iff_exists.mp hsome
    obtain ⟨hrmem, hrp, hrbd⟩ := find?_latest_hit _ (latest :: rest) hsorted r hr
    have hrs : r.trending_score = mathMax ((latest :: rest).map (·.trending_score)) :=
      of_decide_eq_true hrp
    refine ⟨r, hrmem, hrs.trans hpk.symm, ?_, ?_⟩
    · rw [hpt, hr]
    · intro q hq hqs
      exact hrbd q hq (decide_eq_true (hqs.trans hpk))

/-- Witness for the amended C6: the window [score 9 at time 2, score 5
at time 1] is sorted descending, and the theorem yields its peak
fields. -/
theorem c6_peak_fields_witness :
    ∃ d, calculateTrendingDimensions "A" 0 [⟨"A", 1, 9, 2⟩, ⟨"A", 2, 5, 1⟩] = some d ∧
      (∃ r ∈ [(⟨"A", 1, 9, 2⟩ : SnapshotRow), ⟨"A", 2, 5, 1⟩],
        r.trending_score = d.twentyFourHour.peakScore) ∧
      (∀ r ∈ [(⟨"A", 1, 9, 2⟩ : SnapshotRow), ⟨"A", 2, 5, 1⟩],
        r.trending_score ≤ d.twentyFourHour.peakScore) ∧
      (∃ r ∈ [(⟨"A", 1, 9, 2⟩ : SnapshotRow), ⟨"A", 2, 5, 1⟩],
        r.trending_score = d.twentyFourHour.peakScore ∧
        r.created_at = d.twentyFourHour.peakTime ∧
        ∀ q ∈ [(⟨"A", 1, 9, 2⟩ : SnapshotRow), ⟨"A", 2, 5, 1⟩],
          q.trending_score = d.twentyFourHour.peakScore →
          q.created_at ≤ r.created_at) :=
  c6_peak_fields "A" 0 [⟨"A", 1, 9, 2⟩, ⟨"A", 2, 5, 1⟩] (by simp)
    (by simp [List.pairwise_cons])

end AvengersThor
